import Mathlib

/-!
Verification development for the cwChat prompt/system-message renderer.

Shallow embedding of:
  - src/app/services/system_message_store.py (catalog, TemplateParam,
    render_content and its helper functions)
  - src/app/utils/date_utils.py (DateUtil.normalize_timezone)

Python conventions modelled explicitly:
  - optional string arguments become `Option String`; Python truthiness of a
    string-or-None value (`bool(None) = bool("") = False`) is `pyTruthy`;
  - Python exceptions become an `Except PyExc` result;
  - Python dicts (insertion-ordered) become association lists
    `List (String × _)`; `d[k] = v` is `dict_set`, `d.update(u)` is
    `dict_update`, `k in d` / `d.get(k)` is `dict_get`;
  - `str.format` with keyword arguments becomes `pyFormat` (returns `none`
    when a placeholder has no binding or the format string is malformed,
    mirroring the KeyError/ValueError that `except Exception` then catches);
  - a literal brace character inside a template string is written with the
    escapes \x7b and \x7d.
-/

namespace CwChat

/-- Python exceptions that the embedded code can raise. -/
inductive PyExc where
  | keyError
  | attributeError
  | unboundLocalError
  | zoneInfoNotFoundError
  | typeError
  | valueError
deriving DecidableEq, Repr

instance {ε α : Type} [DecidableEq ε] [DecidableEq α] : DecidableEq (Except ε α) := fun a b =>
  match a, b with
  | .ok x, .ok y =>
    if h : x = y then .isTrue (by rw [h]) else .isFalse (fun he => h (Except.ok.inj he))
  | .error x, .error y =>
    if h : x = y then .isTrue (by rw [h]) else .isFalse (fun he => h (Except.error.inj he))
  | .ok _, .error _ => .isFalse (fun he => Except.noConfusion he)
  | .error _, .ok _ => .isFalse (fun he => Except.noConfusion he)

/-- Truthiness of a Python string-or-None value: `bool(None)` and `bool("")`
are `False`, every other string is truthy. -/
def pyTruthy : Option String → Bool
  | none => false
  | some s => !(s == "")

/-- Interpolation of a Python string-or-None value into an f-string:
`f"{None}"` renders as `"None"`. -/
def pyShow : Option String → String
  | none => "None"
  | some s => s

/-- `value or default` on a Python string-or-None value: falsy (`None`/`""`)
falls through to the default. -/
def pyOrStr (value : Option String) (default : String) : String :=
  match value with
  | none => default
  | some s => if s == "" then default else s

/-- The whitespace set of Python `str.strip()` (ASCII part; the catalog and
the claims use only ASCII whitespace). -/
def isPySpace (c : Char) : Bool :=
  c == ' ' || c == '\t' || c == '\n' || c == '\r' || c == '\x0b' || c == '\x0c'

/-- Python `str.strip()`: drop leading and trailing whitespace. -/
def pyStrip (s : String) : String :=
  String.mk (((s.toList.dropWhile isPySpace).reverse.dropWhile isPySpace).reverse)

/-- Is `pat` a prefix of `s` (over character lists)? -/
def isPrefixList : List Char → List Char → Bool
  | [], _ => true
  | _ :: _, [] => false
  | a :: as, b :: bs => a == b && isPrefixList as bs

/-- Does `pat` occur inside `l` (over character lists)? -/
def hasSubstrList (pat : List Char) : List Char → Bool
  | [] => isPrefixList pat []
  | c :: cs => isPrefixList pat (c :: cs) || hasSubstrList pat cs

/-- Python `pat in s` for strings: substring containment. -/
def hasSubstr (s pat : String) : Bool :=
  hasSubstrList pat.toList s.toList

/-- Number of (possibly overlapping) occurrences of `pat` in `l`; used to
count how many times a sentence appears in rendered output. -/
def countOccs (pat : List Char) : List Char → Nat
  | [] => 0
  | c :: cs => (if isPrefixList pat (c :: cs) then 1 else 0) + countOccs pat cs

/-- Python `key.split(".")` for a one-character separator: splits on every
dot, keeping empty pieces, and returns `[s]` when there is no dot. -/
def pySplitDotAux : List Char → List Char → List String
  | [], acc => [String.mk acc.reverse]
  | c :: cs, acc =>
    if c == '.' then String.mk acc.reverse :: pySplitDotAux cs []
    else pySplitDotAux cs (c :: acc)

/-- Python `s.split(".")`. -/
def pySplitDot (s : String) : List String :=
  pySplitDotAux s.toList []

/-- Python dict read `d.get(k)` / `d[k]` / `k in d` on an insertion-ordered
association list: the value at the first entry whose key matches. -/
def dict_get {α : Type} (k : String) : List (String × α) → Option α
  | [] => none
  | kv :: d => if kv.1 = k then some kv.2 else dict_get k d

/-- Python dict assignment `d[k] = v` on an insertion-ordered association
list: overwrite in place when the key exists (`k in d`), else append at the
end. -/
def dict_set {α : Type} (d : List (String × α)) (k : String) (v : α) : List (String × α) :=
  if (dict_get k d).isSome then
    d.map (fun kv => if kv.1 = k then (k, v) else kv)
  else
    d ++ [(k, v)]

/-- Python `d.update(u)`: assign every entry of `u` into `d`, in order. -/
def dict_update {α : Type} (d u : List (String × α)) : List (String × α) :=
  u.foldl (fun acc kv => dict_set acc kv.1 kv.2) d

/-- Role metadata, `RoleSpec` dataclass of system_message_store.py. -/
structure RoleSpec where
  title : String
  responsibility : String
  tasks_line : String
deriving DecidableEq, Repr

/-- `SystemMessageStore._COMPANY_NAME`. -/
def COMPANY_NAME : String := "Common Wealth"

/-- `SystemMessageStore._INDUSTRY`. -/
def INDUSTRY : String := "Retirement Fiance Service"

/-- `SystemMessageStore._BUSINESS_AREA`. -/
def BUSINESS_AREA : String :=
  "Common Wealth provides a digital-first group retirement platform in Canada that unifies planning, saving, investing, annuities, and expert support for members, employers, and advisors. " ++
  "Members benefit from an all-in-one experience that combines multiple account types into a single dashboard, offers automated savings, life-stage-aligned investments, retirement projections, and accessible expert guidance. " ++
  "Employers gain a fully digital setup and administration process, while advisors receive turnkey onboarding and reporting tools to grow their client base."

/-- `SystemMessageStore._ROLES["sales"]`. -/
def sales_spec : RoleSpec :=
  ⟨"Retirement Solutions Sales Advisor",
   "member and employer acquisition for retirement plans",
   "Tasks: qualify employer groups, explain retirement plan value, run platform demos, " ++
   "guide prospects through pension options, respond to objections, and support onboarding coordination."⟩

/-- `SystemMessageStore._ROLES["product_manager"]`. -/
def product_manager_spec : RoleSpec :=
  ⟨"Retirement Product Manager",
   "retirement platform strategy and experience design",
   "Tasks: define retirement product features, prioritize roadmap, analyze member outcomes, " ++
   "align with actuarial and compliance teams, and translate requirements for engineering."⟩

/-- `SystemMessageStore._ROLES["customer_support"]`. -/
def customer_support_spec : RoleSpec :=
  ⟨"Member Support Specialist",
   "member and employer support for retirement plans",
   "Tasks: handle contribution inquiries, assist with account access, explain plan details, " ++
   "resolve benefit questions, and coordinate escalations across operations and compliance teams."⟩

/-- `SystemMessageStore._ROLES["engineering"]`. -/
def engineering_spec : RoleSpec :=
  ⟨"Platform Software Engineer",
   "development and maintenance of the retirement platform",
   "Tasks: design backend services, implement retirement calculation logic, optimize data flows, " ++
   "ensure platform security, review code, and collaborate with product and actuarial teams."⟩

/-- `SystemMessageStore._ROLES["hr"]`. -/
def hr_spec : RoleSpec :=
  ⟨"People Operations Assistant",
   "internal HR support within a regulated fintech environment",
   "Tasks: support onboarding/offboarding, handle internal HR inquiries, assist with benefits, " ++
   "coordinate compliance training, and guide employees to documented HR policies without giving legal or tax advice."⟩

/-- `SystemMessageStore._ROLES`: the role registry, in declaration order. -/
def ROLES : List (String × RoleSpec) :=
  [("sales", sales_spec),
   ("product_manager", product_manager_spec),
   ("customer_support", customer_support_spec),
   ("engineering", engineering_spec),
   ("hr", hr_spec)]

/-- `SystemMessageStore._BASE_VARIANTS`: the variant tail templates shared by
all roles, in declaration order.  A literal brace of the source format
strings is written with the escapes \x7b and \x7d. -/
def BASE_VARIANTS : List (String × String) :=
  [("concise", " Keep the response concise (≤ \x7bmax_words\x7d words)."),
   ("detailed", " Provide structured, actionable steps with short reasoning."),
   ("tool_first", " Use tools or retrieved evidence before answering; cite the results clearly."),
   ("no_hallucinations", " If uncertain or lacking information, say \"I don't know\" rather than guessing."),
   ("pii_safe", " Avoid exposing personal or financial information; mask identifiers except the last four digits."),
   ("tone_warm", " Use a warm, professional, member-centric tone."),
   ("tone_strict", " Use a formal, compliance-aware tone appropriate for regulated fintech."),
   ("escalate", " If the request touches compliance, regulatory, or financial risk, escalate using <handoff/>."),
   ("cite", " When referencing documents or data, cite them as [ref:ID] with source names."),
   ("multilingual", " Respond in the user's language (\x7blocale\x7d) when possible; otherwise default to \x7bdefault_language\x7d.")]

/-- `SystemMessageStore._EXTRA_VARIANTS`: role-specific extra variant tail
templates, in declaration order. -/
def EXTRA_VARIANTS : List (String × List (String × String)) :=
  [("sales",
    [("value_framing",
      " Frame explanations around member and employer outcomes, emphasizing retirement readiness, cost efficiency, " ++
      "and the advantages of a digital-first pension platform."),
     ("discovery_first",
      " Begin by understanding the prospect's workforce, benefits needs, and retirement goals before positioning \x7bproduct\x7d or \x7bservice\x7d.")]),
   ("product_manager",
    [("data_driven",
      " Use member outcomes, contribution patterns, engagement metrics, and actuarial insights to support decisions. " ++
      "Avoid assumptions without validation."),
     ("prioritization_logic",
      " Communicate tradeoffs clearly using reasoning grounded in member impact, employer value, regulatory requirements, " ++
      "and alignment with \x7bcompany\x7d's long-term pension strategy.")]),
   ("customer_support",
    [("empathy_first",
      " Respond with empathy and clarity, especially when addressing contributions, withdrawals, employer remittances, " ++
      "or retirement anxiety."),
     ("structured_troubleshooting",
      " Provide step-by-step troubleshooting; verify contribution timelines, account details, and plan rules before escalating.")]),
   ("engineering",
    [("technical_clarity",
      " Offer clear, accurate technical explanations—especially regarding contribution pipelines, retirement calculations, " ++
      "data integrity, and integrations."),
     ("reliability_focus",
      " Recommend designs that prioritize reliability, accuracy of retirement projections, and maintainability of the pension platform.")]),
   ("hr",
    [("neutral_tone",
      " Maintain a supportive, neutral tone when handling internal HR questions within a regulated environment."),
     ("policy_guided",
      " Base responses on documented HR processes; avoid legal, tax, or financial interpretations and direct employees to proper resources.")])]

/-- Left brace character, written via its code point. -/
def lbrace : Char := Char.ofNat 123

/-- Right brace character, written via its code point. -/
def rbrace : Char := Char.ofNat 125

/-- Worker for `pyFormat`: scans the template character list.  `inPh` says
whether we are inside a placeholder; `nameAcc` holds the placeholder name
read so far (reversed).  Returns `none` exactly when Python `str.format`
would raise: a placeholder name with no keyword binding (KeyError), an
unterminated placeholder, or a lone closing brace (ValueError).  The catalog
templates contain no brace escapes, so those are not modelled. -/
def pyFormatGo (kwargs : List (String × String)) : Bool → List Char → List Char → Option String
  | false, _, [] => some ""
  | true, _, [] => none
  | false, acc, c :: cs =>
    if c == lbrace then pyFormatGo kwargs true [] cs
    else if c == rbrace then none
    else (pyFormatGo kwargs false acc cs).map (fun s => String.mk [c] ++ s)
  | true, nameAcc, c :: cs =>
    if c == rbrace then
      match dict_get (String.mk nameAcc.reverse) kwargs with
      | some v => (pyFormatGo kwargs false [] cs).map (fun s => v ++ s)
      | none => none
    else pyFormatGo kwargs true (c :: nameAcc) cs

/-- Python `template.format(**kwargs)` restricted to named placeholders. -/
def pyFormat (template : String) (kwargs : List (String × String)) : Option String :=
  pyFormatGo kwargs false [] template.toList

/-- Arguments of `SystemMessageStore.render_content`, in source order.
`knowledge_cutoff` is the only required (non-defaulted) parameter; the
source defaults are `timezone="UTC"`, `locale="en"`, `default_language="en"`,
`max_words=120` and `None`/empty for the rest. -/
structure RenderArgs where
  company : Option String
  industry : Option String
  product : Option String
  service : Option String
  business_area : Option String
  jurisdiction : Option String
  policy_url : Option String
  knowledge_cutoff : String
  today : Option String
  timezone : String
  locale : String
  default_language : String
  max_words : Int
  extra_fmt : List (String × String)

/-- `_value_or_default(value, default)`: the value when it is not `None`,
otherwise the default (note: this is an `is None` test, not truthiness). -/
def _value_or_default (value : Option String) (default : String) : String :=
  match value with
  | none => default
  | some s => s

/-- `_all_variants_for(category)`: a copy of the base variant dict updated
with the role's extra variants (`dict(...)` then `.update(...)`). -/
def _all_variants_for (category : String) : List (String × String) :=
  dict_update BASE_VARIANTS ((dict_get category EXTRA_VARIANTS).getD [])

/-- `_a_or_an(phrase)`: "an" when the first letter, lowercased, is a vowel;
`phrase[:1]` of the empty string is `""`, which gives "a". -/
def _a_or_an (phrase : String) : String :=
  match phrase.toList with
  | [] => "a"
  | c :: _ => if (c.toLower == 'a' || c.toLower == 'e' || c.toLower == 'i' ||
                  c.toLower == 'o' || c.toLower == 'u') then "an" else "a"

/-- `SystemMessageStore._get_role_and_variants(key)`: split the key on dots;
the first piece is the role (KeyError when it is not a registered role), the
rest are the variant names in order. -/
def _get_role_and_variants (key : String) : Except PyExc (String × List String) :=
  let splits := pySplitDot key
  let role := splits.headD ""
  let variants := splits.tail
  if (dict_get role ROLES).isSome then Except.ok (role, variants)
  else Except.error PyExc.keyError

/-- `_intro_line(company, role, industry=..., company_business_area=...,
product=..., service=...)`.  Builds the `parts` list exactly as the source
does — note that it ends by appending `role_spec.tasks_line` — and joins the
parts with single spaces.  The `role` lookup into `_ROLES` mirrors the
source's `SystemMessageStore._ROLES[role]` subscript (KeyError on a miss). -/
def _intro_line (company : String) (role : String) (industry : Option String)
    (company_business_area : Option String) (product : Option String)
    (service : Option String) : Except PyExc String :=
  match dict_get role ROLES with
  | none => Except.error PyExc.keyError
  | some role_spec =>
    let parts : List String :=
      ["You are " ++ _a_or_an role_spec.title ++ " " ++ role_spec.title ++ " at " ++
       company ++ " in the " ++ pyShow industry ++ " industry, your responsibility is " ++
       role_spec.responsibility]
    let parts := if pyTruthy company_business_area then
        parts ++ [". " ++ pyShow company_business_area] else parts
    let parts := if pyTruthy product then
        parts ++ ["Now you work with the " ++ pyShow product ++ " product"]
      else if pyTruthy service then
        parts ++ ["Not you provide " ++ pyShow service ++ " services"]
      else parts
    let parts := parts ++ [role_spec.tasks_line]
    Except.ok (String.intercalate " " parts)

/-- `_time_line(knowledge_cutoff=..., today=..., timezone=...)`. -/
def _time_line (knowledge_cutoff today timezone : String) : String :=
  " Knowledge cutoff=" ++ knowledge_cutoff ++ ". Today=" ++ today ++ " " ++ timezone ++ "."

/-- `_compliance_line(jurisdiction=..., policy_url=...)`: the optional
compliance sentence, selected by truthiness of the two arguments. -/
def _compliance_line (jurisdiction policy_url : Option String) : String :=
  let has_jurisdiction := pyTruthy jurisdiction
  let has_policy_url := pyTruthy policy_url
  if has_jurisdiction && has_policy_url then
    " Comply with " ++ pyShow jurisdiction ++ " policies and " ++ pyShow policy_url ++ "."
  else if has_jurisdiction then
    " Comply with " ++ pyShow jurisdiction ++ " policies."
  else if has_policy_url then
    " Follow internal policies: " ++ pyShow policy_url ++ "."
  else ""

/-- One iteration of the variant loop body: look the variant up in the
role's variant map; on a hit, format its template with
`max_words`, `locale`, `default_language` and the caller's extra keyword
arguments — any exception from `.format` (missing placeholder, malformed
template, or a duplicate keyword argument between the extras and the three
fixed ones, which is a TypeError at the call itself) falls back to the raw
template text; on a miss, contribute the empty string. -/
def variant_tail_of (variant_map : List (String × String)) (a : RenderArgs)
    (variant : String) : String :=
  match dict_get variant variant_map with
  | some tail_template =>
    if a.extra_fmt.any (fun kv =>
        kv.1 == "max_words" || kv.1 == "locale" || kv.1 == "default_language") then
      tail_template
    else
      match pyFormat tail_template
        ([("max_words", toString a.max_words), ("locale", a.locale),
          ("default_language", a.default_language)] ++ a.extra_fmt) with
      | some t => t
      | none => tail_template
  | none => ""

/-- `SystemMessageStore.render_content(key, ...)`.

`utc_today` stands for `DateUtil.now_date_iso()` — the current UTC calendar
date read from the system clock when the caller passes `today=None`.

The source initializes a `tails` list that it never appends to; its loop
rebinds a single local `tail` on every iteration, so after the loop `tail`
holds only the LAST variant's tail — and when the key names no variant at
all the local `tail` was never assigned and the final expression raises
`UnboundLocalError`.  The fold below reproduces exactly that: the
accumulator ignores its previous value, and `none` marks the unassigned
local. -/
def render_content (key : String) (a : RenderArgs) (utc_today : String) :
    Except PyExc String :=
  let company := _value_or_default a.company COMPANY_NAME
  let industry := _value_or_default a.industry INDUSTRY
  let business_area := _value_or_default a.business_area BUSINESS_AREA
  match _get_role_and_variants key with
  | Except.error e => Except.error e
  | Except.ok (role, variants) =>
    match _intro_line company role (some industry) (some business_area)
        a.product a.service with
    | Except.error e => Except.error e
    | Except.ok intro =>
      match dict_get role ROLES with
      | none => Except.error PyExc.keyError
      | some role_spec =>
        let tasks := role_spec.tasks_line
        let time_line := _time_line a.knowledge_cutoff (a.today.getD utc_today) a.timezone
        let compliance := _compliance_line a.jurisdiction a.policy_url
        let variant_map := _all_variants_for role
        let tail? := variants.foldl
          (fun _ variant => some (variant_tail_of variant_map a variant))
          (none : Option String)
        match tail? with
        | none => Except.error PyExc.unboundLocalError
        | some tail =>
          Except.ok (pyStrip (intro ++ " " ++ tasks ++ time_line ++ compliance ++ " " ++ tail))

/-- Outcome of constructing `zoneinfo.ZoneInfo(key)` for a given key:
the key is found in the IANA database; or it is a well-formed key with no
entry (`ZoneInfoNotFoundError`, a `KeyError` subclass); or it is malformed
(`ValueError`). -/
inductive ZIOutcome where
  | found
  | notFound
  | badKey
deriving DecidableEq, Repr

/-- `DateUtil.normalize_timezone(value)` of date_utils.py, parameterized by
the system's IANA timezone database (`zoneinfo_db key` says what
`ZoneInfo(key)` does).  The source computes
`tz = (value or "UTC").strip() or "UTC"`, then validates with
`ZoneInfo(tz)` under `except (TypeError, ValueError)`; a
`ZoneInfoNotFoundError` is a `KeyError` subclass, which that clause does
NOT catch, so a well-formed unknown zone propagates to the caller. -/
def normalize_timezone (zoneinfo_db : String → ZIOutcome) (value : Option String) :
    Except PyExc String :=
  let stripped := pyStrip (pyOrStr value "UTC")
  let tz := if stripped == "" then "UTC" else stripped
  match zoneinfo_db tz with
  | ZIOutcome.found => Except.ok tz
  | ZIOutcome.badKey => Except.ok "UTC"
  | ZIOutcome.notFound => Except.error PyExc.zoneInfoNotFoundError

/-- A concrete stand-in for a real system's IANA timezone database: it
contains the usual named zones used by this repository and, like any real
database, has no entry for a made-up region name. -/
def exampleZoneDb (key : String) : ZIOutcome :=
  if key == "UTC" || key == "America/Toronto" || key == "America/New_York" ||
     key == "Asia/Seoul" || key == "Europe/London" then ZIOutcome.found
  else if hasSubstr key ".." || isPrefixList ['/'] key.toList then ZIOutcome.badKey
  else ZIOutcome.notFound

/-- `SystemMessageStore.keys(self)`: the body iterates
`for c in self.roles.keys()`, but the class defines only the class attribute
`_ROLES` — there is no instance or class attribute named `roles` and no
`__init__` that would create one, so the attribute lookup raises
`AttributeError` before anything is produced. -/
def SystemMessageStore.keys : Except PyExc (List String) :=
  Except.error PyExc.attributeError

/-- A Python value as stored in a `TemplateParam` field or passed in the
`extra` mapping of `to_kwargs`: `None`, a string, an int, or a list (list
payloads are modelled as their element strings; only emptiness matters to
the code under study). -/
inductive PyVal where
  | pyNone
  | pyStr (s : String)
  | pyInt (n : Int)
  | pyList (xs : List String)
deriving DecidableEq, Repr

/-- `TemplateParam` dataclass fields, in declaration order.  The dataclass
annotates every field as `str`, but Python does not enforce that and the
repository's own example calls pass `None`, so fields hold `PyVal`s. -/
structure TemplateParam where
  company : PyVal
  product : PyVal
  service : PyVal
  jurisdiction : PyVal
  policy_url : PyVal
  knowledge_cutoff : PyVal
  today : PyVal
  timezone : PyVal
deriving DecidableEq, Repr

/-- `dataclasses.asdict(self)`: field-name/value pairs in field order. -/
def asdict (p : TemplateParam) : List (String × PyVal) :=
  [("company", p.company), ("product", p.product), ("service", p.service),
   ("jurisdiction", p.jurisdiction), ("policy_url", p.policy_url),
   ("knowledge_cutoff", p.knowledge_cutoff), ("today", p.today),
   ("timezone", p.timezone)]

/-- The membership test `v in (None, "", [])` of `to_kwargs`. -/
def isEmptyish (v : PyVal) : Bool :=
  v == PyVal.pyNone || v == PyVal.pyStr "" || v == PyVal.pyList []

/-- `TemplateParam.to_kwargs(extra=...)`: start from `asdict(self)` and, for
each extra entry in order, assign it only when the key is absent or its
current value is `None`, `""` or `[]`. -/
def TemplateParam.to_kwargs (p : TemplateParam) (extra : List (String × PyVal)) :
    List (String × PyVal) :=
  extra.foldl
    (fun out kv =>
      match dict_get kv.1 out with
      | none => dict_set out kv.1 kv.2
      | some v0 => if isEmptyish v0 then dict_set out kv.1 kv.2 else out)
    (asdict p)

/-- A concrete, fully explicit parameter set used to evaluate the renderer:
`company="C"`, `industry="I"`, no product, no service, `business_area="B"`,
no jurisdiction, no policy_url, `knowledge_cutoff="2025-06-01"`,
`today="2025-11-10"`, `timezone="UTC"`, `locale="en"`,
`default_language="en"`, `max_words=120`, no extra format kwargs. -/
def render_args_example : RenderArgs :=
  ⟨some "C", some "I", none, none, some "B", none, none,
   "2025-06-01", some "2025-11-10", "UTC", "en", "en", 120, []⟩

/-- Like `render_args_example` but with `service="Accounts Payable"`
(and still no product), matching the repository's own example call. -/
def render_args_service_example : RenderArgs :=
  ⟨some "C", some "I", none, some "Accounts Payable", some "B", none, none,
   "2025-06-01", some "2025-11-10", "UTC", "en", "en", 120, []⟩

/-!  Helper lemmas about the association-list model of Python dicts. -/

theorem dict_get_map_set {α : Type} (d : List (String × α)) (k k' : String) (v : α)
    (h : k ≠ k') :
    dict_get k (d.map (fun kv => if kv.1 = k' then (k', v) else kv)) = dict_get k d := by
  induction d with
  | nil => rfl
  | cons kv d ih =>
    simp only [List.map_cons, dict_get]
    by_cases hk : kv.1 = k'
    · rw [if_pos hk, if_neg (Ne.symm h)]
      rw [if_neg (by rw [hk]; exact Ne.symm h : ¬kv.1 = k)]
      exact ih
    · rw [if_neg hk]
      by_cases hkk : kv.1 = k
      · rw [if_pos hkk, if_pos hkk]
      · rw [if_neg hkk, if_neg hkk]
        exact ih

theorem dict_get_append {α : Type} (d1 d2 : List (String × α)) (k : String) :
    dict_get k (d1 ++ d2) = ((dict_get k d1).orElse (fun _ => dict_get k d2)) := by
  induction d1 with
  | nil => rfl
  | cons kv d ih =>
    simp only [List.cons_append, dict_get]
    by_cases hk : kv.1 = k
    · rw [if_pos hk, if_pos hk]; rfl
    · rw [if_neg hk, if_neg hk]; exact ih

theorem dict_get_map_self {α : Type} (d : List (String × α)) (k : String) (v : α)
    (h : (dict_get k d).isSome = true) :
    dict_get k (d.map (fun kv => if kv.1 = k then (k, v) else kv)) = some v := by
  induction d with
  | nil => simp [dict_get] at h
  | cons kv d ih =>
    simp only [List.map_cons, dict_get]
    by_cases hk : kv.1 = k
    · rw [if_pos hk]; simp [dict_get]
    · rw [if_neg hk, if_neg hk]
      apply ih
      simpa [dict_get, hk] using h

/-- After `d[k] = v`, reading `k` yields `v`. -/
theorem dict_get_set_self {α : Type} (d : List (String × α)) (k : String) (v : α) :
    dict_get k (dict_set d k v) = some v := by
  unfold dict_set
  by_cases h : (dict_get k d).isSome = true
  · rw [if_pos h]; exact dict_get_map_self d k v h
  · rw [if_neg h, dict_get_append]
    have hn : dict_get k d = none := by
      cases hg : dict_get k d with
      | none => rfl
      | some w => rw [hg] at h; simp at h
    rw [hn]
    simp [dict_get]

/-- `d[k'] = v` does not change the binding of any other key. -/
theorem dict_get_set_ne {α : Type} (d : List (String × α)) (k k' : String) (v : α)
    (h : k ≠ k') :
    dict_get k (dict_set d k' v) = dict_get k d := by
  unfold dict_set
  by_cases ha : (dict_get k' d).isSome = true
  · rw [if_pos ha, dict_get_map_set d k k' v h]
  · rw [if_neg ha, dict_get_append]
    cases hg : dict_get k d with
    | none => simp [dict_get, Ne.symm h]
    | some w => simp

/-- Updating a dict with a two-entry dict (distinct keys) is right-biased:
a key bound by the update reads as the update's value, any other key reads
as before. -/
theorem dict_get_update_pair {α : Type} (d : List (String × α)) (k k1 k2 : String)
    (v1 v2 : α) (hne : k1 ≠ k2) :
    dict_get k (dict_update d [(k1, v1), (k2, v2)]) =
      ((dict_get k [(k1, v1), (k2, v2)]).orElse (fun _ => dict_get k d)) := by
  show dict_get k (dict_set (dict_set d k1 v1) k2 v2) = _
  by_cases h2 : k = k2
  · subst h2
    rw [dict_get_set_self]
    simp only [dict_get]
    rw [if_neg hne]
    simp
  · rw [dict_get_set_ne _ _ _ _ h2]
    by_cases h1 : k = k1
    · subst h1
      rw [dict_get_set_self]
      simp [dict_get]
    · rw [dict_get_set_ne _ _ _ _ h1]
      simp only [dict_get]
      rw [if_neg (Ne.symm h1), if_neg (Ne.symm h2)]
      rfl

/-- One `to_kwargs` loop step never disturbs a key whose current value is
not `None`/`""`/`[]`. -/
theorem to_kwargs_step_preserves (out : List (String × PyVal)) (kv : String × PyVal)
    (k : String) (v : PyVal) (h1 : dict_get k out = some v) (h2 : isEmptyish v = false) :
    dict_get k
      (match dict_get kv.1 out with
       | none => dict_set out kv.1 kv.2
       | some v0 => if isEmptyish v0 then dict_set out kv.1 kv.2 else out) = some v := by
  by_cases hk : kv.1 = k
  · rw [hk, h1]
    simp only [h2]
    rw [if_neg (by simp [h2])]
    exact h1
  · cases hg : dict_get kv.1 out with
    | none => rw [dict_get_set_ne _ _ _ _ (Ne.symm hk)]; exact h1
    | some v0 =>
      show dict_get k (if isEmptyish v0 = true then dict_set out kv.1 kv.2 else out) = some v
      by_cases he : isEmptyish v0 = true
      · rw [if_pos he, dict_get_set_ne _ _ _ _ (Ne.symm hk)]; exact h1
      · rw [if_neg he]; exact h1

theorem to_kwargs_foldl_preserves (extra : List (String × PyVal))
    (out : List (String × PyVal)) (k : String) (v : PyVal)
    (h1 : dict_get k out = some v) (h2 : isEmptyish v = false) :
    dict_get k
      (extra.foldl
        (fun out kv =>
          match dict_get kv.1 out with
          | none => dict_set out kv.1 kv.2
          | some v0 => if isEmptyish v0 then dict_set out kv.1 kv.2 else out)
        out) = some v := by
  induction extra generalizing out with
  | nil => exact h1
  | cons kv rest ih =>
    simp only [List.foldl_cons]
    exact ih _ (to_kwargs_step_preserves out kv k v h1 h2)

theorem intercalate_three (a b c : String) :
    String.intercalate " " [a, b, c] = a ++ " " ++ b ++ " " ++ c := rfl

theorem intercalate_four (a b c d : String) :
    String.intercalate " " [a, b, c, d] = a ++ " " ++ b ++ " " ++ c ++ " " ++ d := rfl

/-- Claim C1.  The claim states that rendering a bare role key (no
variants) is defined for every catalog role and returns a non-empty string
containing the role's title.  The code disagrees: when the key carries no
variant, the loop that would bind the local `tail` never runs, and the
final string expression raises `UnboundLocalError` — for every one of the
five roles and every parameter set. -/
theorem bare_role_key_render_raises (a : RenderArgs) (utc_today : String) :
    render_content "sales" a utc_today = Except.error PyExc.unboundLocalError ∧
    render_content "product_manager" a utc_today = Except.error PyExc.unboundLocalError ∧
    render_content "customer_support" a utc_today = Except.error PyExc.unboundLocalError ∧
    render_content "engineering" a utc_today = Except.error PyExc.unboundLocalError ∧
    render_content "hr" a utc_today = Except.error PyExc.unboundLocalError :=
  ⟨rfl, rfl, rfl, rfl, rfl⟩

set_option maxRecDepth 100000 in
/-- Claim C2.  The claim states that a key with several variants renders
every requested tail in request order.  The code disagrees: rendering
`"sales.concise.tone_warm"` succeeds but contains only the LAST variant's
tail (`tone_warm`); the `concise` tail is absent, because the loop rebinds
a single `tail` local instead of appending to its dead `tails` list. -/
theorem multi_variant_key_renders_only_last_tail :
    (render_content "sales.concise.tone_warm" render_args_example "2025-11-10").isOk = true ∧
    hasSubstr
      ((render_content "sales.concise.tone_warm" render_args_example "2025-11-10").toOption.getD "")
      " Use a warm, professional, member-centric tone." = true ∧
    hasSubstr
      ((render_content "sales.concise.tone_warm" render_args_example "2025-11-10").toOption.getD "")
      "Keep the response concise" = false := by
  decide

/-- Claim C3.  The claim states `normalize_timezone` never raises and maps
any unknown zone to "UTC".  Empty and missing inputs do yield "UTC" and a
known zone is returned unchanged, but a well-formed zone name that the
IANA database does not contain makes `ZoneInfo` raise
`ZoneInfoNotFoundError`, a `KeyError` subclass that the function's
`except (TypeError, ValueError)` clause does not catch, so the call
propagates the exception to the caller. -/
theorem normalize_timezone_unknown_zone_raises :
    normalize_timezone exampleZoneDb none = Except.ok "UTC" ∧
    normalize_timezone exampleZoneDb (some "") = Except.ok "UTC" ∧
    normalize_timezone exampleZoneDb (some "   ") = Except.ok "UTC" ∧
    normalize_timezone exampleZoneDb (some "America/Toronto") = Except.ok "America/Toronto" ∧
    normalize_timezone exampleZoneDb (some "America/Nowhere") =
      Except.error PyExc.zoneInfoNotFoundError :=
  ⟨rfl, rfl, rfl, rfl, rfl⟩

/-- Claim C4.  The claim states that a known-role key with one unknown
variant renders without raising and yields exactly the bare role key's
output.  The first half holds — `"sales.nonexistent"` renders fine — but
the bare key `"sales"` raises `UnboundLocalError` for every parameter set,
so the two can never be equal. -/
theorem unknown_variant_key_ok_bare_key_raises (a : RenderArgs) (utc_today : String) :
    (render_content "sales.nonexistent" a utc_today).isOk = true ∧
    render_content "sales" a utc_today = Except.error PyExc.unboundLocalError :=
  ⟨rfl, rfl⟩

set_option maxRecDepth 100000 in
/-- Claim C5.  The claim states the rendered string contains the role's
tasks sentence exactly once.  The code emits it twice: `_intro_line`
itself appends `role_spec.tasks_line` as the last intro part, and
`render_content` then concatenates `tasks` again; counting occurrences of
the sales tasks sentence in a concrete successful render gives 2. -/
theorem rendered_output_duplicates_tasks_sentence :
    countOccs (sales_spec.tasks_line.toList)
      (((render_content "sales.concise" render_args_example "2025-11-10").toOption.getD "").toList)
      = 2 := by
  decide

set_option maxRecDepth 100000 in
/-- Claim C6, counterexample.  The claim states that with product absent
and service present the intro contains "You provide {service} services".
At a concrete input the render succeeds but that substring is absent: the
code writes "Not you provide {service} services" instead. -/
theorem intro_service_clause_text_counterexample :
    (render_content "sales.concise" render_args_service_example "2025-11-10").isOk = true ∧
    hasSubstr
      ((render_content "sales.concise" render_args_service_example "2025-11-10").toOption.getD "")
      "You provide Accounts Payable services" = false ∧
    hasSubstr
      ((render_content "sales.concise" render_args_service_example "2025-11-10").toOption.getD "")
      "Not you provide Accounts Payable services" = true := by
  decide

/-- Claim C6, as amended.  For every known role and parameter set: when
product is truthy, the intro is unchanged by dropping service (the service
clause is omitted) and contains "Now you work with the {product} product";
when product is falsy and service truthy, the intro contains
"Not you provide {service} services" — the code's actual wording, which is
the only divergence from the claim as stated. -/
theorem intro_clause_selection_amended (company role : String) (spec : RoleSpec)
    (h : dict_get role ROLES = some spec)
    (industry company_business_area product service : Option String) :
    (pyTruthy product = true →
      (_intro_line company role industry company_business_area product service =
        _intro_line company role industry company_business_area product none) ∧
      ∃ pre post, _intro_line company role industry company_business_area product service =
        Except.ok (pre ++ ("Now you work with the " ++ pyShow product ++ " product") ++ post)) ∧
    (pyTruthy product = false → pyTruthy service = true →
      ∃ pre post, _intro_line company role industry company_business_area product service =
        Except.ok (pre ++ ("Not you provide " ++ pyShow service ++ " services") ++ post)) := by
  refine ⟨fun hp => ⟨?_, ?_⟩, fun hp hs => ?_⟩
  · simp [_intro_line, h, hp]
  · by_cases hba : pyTruthy company_business_area
    · refine ⟨("You are " ++ _a_or_an spec.title ++ " " ++ spec.title ++ " at " ++ company ++
        " in the " ++ pyShow industry ++ " industry, your responsibility is " ++
        spec.responsibility) ++ " " ++ (". " ++ pyShow company_business_area) ++ " ",
        " " ++ spec.tasks_line, ?_⟩
      simp [_intro_line, h, hp, hba, intercalate_four, String.append_assoc]
      rfl
    · refine ⟨("You are " ++ _a_or_an spec.title ++ " " ++ spec.title ++ " at " ++ company ++
        " in the " ++ pyShow industry ++ " industry, your responsibility is " ++
        spec.responsibility) ++ " ", " " ++ spec.tasks_line, ?_⟩
      simp [_intro_line, h, hp, hba, intercalate_three, String.append_assoc]
      rfl
  · by_cases hba : pyTruthy company_business_area
    · refine ⟨("You are " ++ _a_or_an spec.title ++ " " ++ spec.title ++ " at " ++ company ++
        " in the " ++ pyShow industry ++ " industry, your responsibility is " ++
        spec.responsibility) ++ " " ++ (". " ++ pyShow company_business_area) ++ " ",
        " " ++ spec.tasks_line, ?_⟩
      simp [_intro_line, h, hp, hs, hba, intercalate_four, String.append_assoc]
      rfl
    · refine ⟨("You are " ++ _a_or_an spec.title ++ " " ++ spec.title ++ " at " ++ company ++
        " in the " ++ pyShow industry ++ " industry, your responsibility is " ++
        spec.responsibility) ++ " ", " " ++ spec.tasks_line, ?_⟩
      simp [_intro_line, h, hp, hs, hba, intercalate_three, String.append_assoc]
      rfl

/-- Witness for the amended claim C6 at a concrete input: with a product
present, adding a service does not change the intro at all. -/
theorem intro_clause_selection_amended_witness :
    _intro_line "C" "sales" (some "I") (some "B") (some "P") (some "S") =
      _intro_line "C" "sales" (some "I") (some "B") (some "P") none :=
  ((intro_clause_selection_amended "C" "sales" sales_spec rfl
      (some "I") (some "B") (some "P") (some "S")).1 (by decide)).1

/-- Claim C7.  The compliance sentence is selected by exactly four cases on
truthiness of jurisdiction and policy_url, with the exact texts of the
source; when neither is given the segment is empty, so it contributes no
"Comply" and no "Follow internal policies" substring. -/
theorem compliance_line_four_cases (j p : Option String) :
    (pyTruthy j = true ∧ pyTruthy p = true →
      _compliance_line j p =
        " Comply with " ++ pyShow j ++ " policies and " ++ pyShow p ++ ".") ∧
    (pyTruthy j = true ∧ pyTruthy p = false →
      _compliance_line j p = " Comply with " ++ pyShow j ++ " policies.") ∧
    (pyTruthy j = false ∧ pyTruthy p = true →
      _compliance_line j p = " Follow internal policies: " ++ pyShow p ++ ".") ∧
    (pyTruthy j = false ∧ pyTruthy p = false →
      _compliance_line j p = "" ∧
      hasSubstr (_compliance_line j p) "Comply" = false ∧
      hasSubstr (_compliance_line j p) "Follow internal policies" = false) := by
  refine ⟨?_, ?_, ?_, ?_⟩ <;> rintro ⟨h1, h2⟩ <;>
    simp [_compliance_line, h1, h2] <;> decide

/-- Witness for claim C7: the four cases evaluated at concrete inputs. -/
theorem compliance_line_four_cases_witness :
    _compliance_line (some "SOX/PCI") (some "https://intra.acme/policies/ai") =
      " Comply with SOX/PCI policies and https://intra.acme/policies/ai." ∧
    _compliance_line (some "SOX/PCI") none = " Comply with SOX/PCI policies." ∧
    _compliance_line none (some "https://intra.acme/policies/ai") =
      " Follow internal policies: https://intra.acme/policies/ai." ∧
    _compliance_line none none = "" :=
  ⟨(compliance_line_four_cases (some "SOX/PCI") (some "https://intra.acme/policies/ai")).1
      ⟨by decide, by decide⟩,
   (compliance_line_four_cases (some "SOX/PCI") none).2.1 ⟨by decide, rfl⟩,
   (compliance_line_four_cases none (some "https://intra.acme/policies/ai")).2.2.1
      ⟨rfl, by decide⟩,
   ((compliance_line_four_cases none none).2.2.2 ⟨rfl, rfl⟩).1⟩

/-- Claim C8.  The claim states `keys()` returns every role.variant key,
role-major, without raising.  The method's body iterates
`self.roles.keys()`, but `SystemMessageStore` defines no attribute named
`roles` (the registry is the class attribute `_ROLES` and there is no
`__init__`), so the call raises `AttributeError` before producing
anything. -/
theorem keys_method_raises_attribute_error :
    SystemMessageStore.keys = Except.error PyExc.attributeError := rfl

/-- Claim C9.  For each catalog role, the effective variant map built by
`_all_variants_for` is the right-biased dict-update of the base variants
with the role's extras: a name bound by the role's extra table reads as the
extra's template text, and any other name reads exactly as in the base
table. -/
theorem all_variants_merge_right_biased (name : String) :
    (dict_get name (_all_variants_for "sales") =
      ((dict_get name ((dict_get "sales" EXTRA_VARIANTS).getD [])).orElse
        (fun _ => dict_get name BASE_VARIANTS))) ∧
    (dict_get name (_all_variants_for "product_manager") =
      ((dict_get name ((dict_get "product_manager" EXTRA_VARIANTS).getD [])).orElse
        (fun _ => dict_get name BASE_VARIANTS))) ∧
    (dict_get name (_all_variants_for "customer_support") =
      ((dict_get name ((dict_get "customer_support" EXTRA_VARIANTS).getD [])).orElse
        (fun _ => dict_get name BASE_VARIANTS))) ∧
    (dict_get name (_all_variants_for "engineering") =
      ((dict_get name ((dict_get "engineering" EXTRA_VARIANTS).getD [])).orElse
        (fun _ => dict_get name BASE_VARIANTS))) ∧
    (dict_get name (_all_variants_for "hr") =
      ((dict_get name ((dict_get "hr" EXTRA_VARIANTS).getD [])).orElse
        (fun _ => dict_get name BASE_VARIANTS))) :=
  ⟨dict_get_update_pair BASE_VARIANTS name _ _ _ _ (by decide),
   dict_get_update_pair BASE_VARIANTS name _ _ _ _ (by decide),
   dict_get_update_pair BASE_VARIANTS name _ _ _ _ (by decide),
   dict_get_update_pair BASE_VARIANTS name _ _ _ _ (by decide),
   dict_get_update_pair BASE_VARIANTS name _ _ _ _ (by decide)⟩

/-- Claim C10.  `to_kwargs` never disturbs a field whose resolved value is
not `None`, `""` or `[]`: whatever the extras are, reading such a field
from the result yields the field's own value. -/
theorem to_kwargs_preserves_filled (p : TemplateParam) (extra : List (String × PyVal))
    (k : String) (v : PyVal) (h1 : dict_get k (asdict p) = some v)
    (h2 : isEmptyish v = false) :
    dict_get k (p.to_kwargs extra) = some v :=
  to_kwargs_foldl_preserves extra (asdict p) k v h1 h2

/-- Witness for claim C10: an extras mapping that targets a filled field
(`company`) and a fresh key leaves the filled field's value intact. -/
theorem to_kwargs_preserves_filled_witness :
    dict_get "company"
      (TemplateParam.to_kwargs
        ⟨PyVal.pyStr "Common Wealth", PyVal.pyNone, PyVal.pyStr "Accounts Payable",
         PyVal.pyNone, PyVal.pyNone, PyVal.pyStr "1970-01-01",
         PyVal.pyStr "2025-11-10", PyVal.pyStr "UTC"⟩
        [("company", PyVal.pyStr "Acme Corp"), ("refund_policy_url", PyVal.pyStr "x")])
      = some (PyVal.pyStr "Common Wealth") :=
  to_kwargs_preserves_filled
    ⟨PyVal.pyStr "Common Wealth", PyVal.pyNone, PyVal.pyStr "Accounts Payable",
     PyVal.pyNone, PyVal.pyNone, PyVal.pyStr "1970-01-01",
     PyVal.pyStr "2025-11-10", PyVal.pyStr "UTC"⟩
    [("company", PyVal.pyStr "Acme Corp"), ("refund_policy_url", PyVal.pyStr "x")]
    "company" (PyVal.pyStr "Common Wealth") (by decide) (by decide)

end CwChat
